import Mathlib

/-!
Shallow embedding of `src/PagerView.tsx` from react-native-pager-view.

The `PagerView` class component is modelled as a pure state-transition
system: its mutable fields (`isScrolling`, `pagerView`, `store`) become a
`ComponentState` record, each event handler / imperative method becomes a
function `ComponentState → ComponentState × List Effect`, and every
externally visible side effect (forwarding an event to a user callback,
dismissing the keyboard, issuing a native command, creating or updating the
page-state store) is recorded as an `Effect` in the order the source
performs it.

The store itself (`createPagerStore` / `setState` from `usePager`) is not
under `src/`; its behaviour is modelled from the spec where noted.
-/

namespace PagerView

/-- Values idle, settling, dragging of `OnPageScrollStateChangedEventData`. -/
inductive PageScrollState where
  | idle
  | settling
  | dragging
deriving DecidableEq, Repr

/-- Values of the `keyboardDismissMode` prop: none or on-drag. -/
inductive KeyboardDismissMode where
  | noDismiss
  | onDrag
deriving DecidableEq, Repr

/-- Values of the `layoutDirection` prop: ltr, rtl, or locale. -/
inductive LayoutDirection where
  | ltr
  | rtl
  | locale
deriving DecidableEq, Repr

/-- Values of `Platform.OS` relevant to the branch in `_onPageScroll`. -/
inductive PlatformOS where
  | android
  | ios
  | web
deriving DecidableEq, Repr

/-- Payload of a native `onPageScroll` event. The handler never reads the
`offset` field (a float in the source), so it is carried opaquely as `Int`. -/
structure OnPageScrollEventData where
  position : Int
  offset : Int
deriving DecidableEq, Repr

/-- Payload of a native `onPageScrollStateChanged` event. -/
structure OnPageScrollStateChangedEventData where
  pageScrollState : PageScrollState
deriving DecidableEq, Repr

/-- Payload of a native `onPageSelected` event. -/
structure OnPageSelectedEventData where
  position : Int
deriving DecidableEq, Repr

/-- The page-synchronization state held by the store (`PagerViewState`). -/
structure PageSyncState where
  page : Int
  hasNextPage : Bool
  hasPreviousPage : Bool
deriving DecidableEq, Repr

/-- A `Partial<PageSyncState>`: each field optionally present, as passed to
the `setState` of the store. -/
structure PageSyncUpdate where
  page : Option Int := none
  hasNextPage : Option Bool := none
  hasPreviousPage : Option Bool := none
deriving DecidableEq, Repr

/-- Modelled from the spec: `setState(partial)` of the store (`usePager.ts`,
not under `src/`) "merges the partial update into the current state,
producing a new immutable snapshot"; fields present in the update override
the current ones. -/
def applySetState (s : PageSyncState) (u : PageSyncUpdate) : PageSyncState :=
  { page := u.page.getD s.page
    hasNextPage := u.hasNextPage.getD s.hasNextPage
    hasPreviousPage := u.hasPreviousPage.getD s.hasPreviousPage }

/-- Modelled from the spec: `createPagerStore(initialPage)` (`usePager.ts`,
not under `src/`) seeds the store with the initial page,
`hasPreviousPage = initialPage > 0`, and `hasNextPage` optimistically
`true`. -/
def createPagerStore (initialPage : Int) : PageSyncState :=
  { page := initialPage
    hasNextPage := true
    hasPreviousPage := decide (initialPage > 0) }

/-- The props of `PagerView` used by the embedded code. Callback props are
modelled by whether the user supplied them; `childrenCount` stands for
`React.Children.count(this.props.children)`. -/
structure Props where
  initialPage : Option Int := none
  onPageScroll : Bool := false
  onPageScrollStateChanged : Bool := false
  onPageSelected : Bool := false
  keyboardDismissMode : Option KeyboardDismissMode := none
  layoutDirection : Option LayoutDirection := none
  childrenCount : Nat := 0
deriving DecidableEq, Repr

/-- The mutable instance fields of the `PagerView` class. The native view
handle `pagerView` is an opaque reference, modelled as `Option Nat`; the
store field is `PagerStore | null` in the source. -/
structure ComponentState where
  isScrolling : Bool
  pagerView : Option Nat
  store : Option PageSyncState
deriving DecidableEq, Repr

/-- Every externally visible side effect the component performs, in source
order. -/
inductive Effect where
  | storeCreate (seed : Int)
  | userOnPageScroll (e : OnPageScrollEventData)
  | userOnPageScrollStateChanged (e : OnPageScrollStateChangedEventData)
  | userOnPageSelected (e : OnPageSelectedEventData)
  | keyboardDismiss
  | storeSetState (u : PageSyncUpdate)
  | nativeSetPage (handle : Nat) (index : Int)
  | nativeSetPageWithoutAnimation (handle : Nat) (index : Int)
  | nativeSetScrollEnabledImperatively (handle : Nat) (enabled : Bool)
deriving DecidableEq, Repr

/-- The constructor: field initializers (`isScrolling = false`,
`pagerView = null`) plus `this.store = createPagerStore(props.initialPage ?? 0)`. -/
def constructPagerView (props : Props) : ComponentState × List Effect :=
  ({ isScrolling := false
     pagerView := none
     store := some (createPagerStore (props.initialPage.getD 0)) },
   [Effect.storeCreate (props.initialPage.getD 0)])

/-- Handler `_onPageScroll`: forward to the user callback if provided; then,
on Android with `keyboardDismissMode` equal to on-drag, dismiss the keyboard. -/
def _onPageScroll (platform : PlatformOS) (props : Props) (s : ComponentState)
    (e : OnPageScrollEventData) : ComponentState × List Effect :=
  let effs := if props.onPageScroll then [Effect.userOnPageScroll e] else []
  let effs :=
    if platform = PlatformOS.android then
      if props.keyboardDismissMode = some KeyboardDismissMode.onDrag then
        effs ++ [Effect.keyboardDismiss]
      else effs
    else effs
  (s, effs)

/-- Handler `_onPageScrollStateChanged`: forward to the user callback if
provided; then set `this.isScrolling` to whether the state is dragging. -/
def _onPageScrollStateChanged (props : Props) (s : ComponentState)
    (e : OnPageScrollStateChangedEventData) : ComponentState × List Effect :=
  let effs :=
    if props.onPageScrollStateChanged then [Effect.userOnPageScrollStateChanged e] else []
  ({ s with isScrolling := decide (e.pageScrollState = PageScrollState.dragging) }, effs)

/-- The `setState` argument object built by `_onPageSelected`:
`page = position`, `hasNextPage = position < childrenCount - 1`,
`hasPreviousPage = position > 0`. -/
def selectionUpdate (e : OnPageSelectedEventData) (childrenCount : Nat) : PageSyncUpdate :=
  { page := some e.position
    hasNextPage := some (decide (e.position < (childrenCount : Int) - 1))
    hasPreviousPage := some (decide (e.position > 0)) }

/-- Handler `_onPageSelected`: forward to the user callback if provided; then
`this.store?.setState({...})` (optional chaining: no update when the store
field is null). -/
def _onPageSelected (props : Props) (s : ComponentState)
    (e : OnPageSelectedEventData) : ComponentState × List Effect :=
  let effs := if props.onPageSelected then [Effect.userOnPageSelected e] else []
  match s.store with
  | none => (s, effs)
  | some st =>
      let u := selectionUpdate e props.childrenCount
      ({ s with store := some (applySetState st u) }, effs ++ [Effect.storeSetState u])

/-- Method `setPage`: guarded by `this.pagerView`, it issues the animated
native page command. -/
def setPage (s : ComponentState) (selectedPage : Int) : ComponentState × List Effect :=
  match s.pagerView with
  | none => (s, [])
  | some h => (s, [Effect.nativeSetPage h selectedPage])

/-- Method `setPageWithoutAnimation`: same guard, non-animated native command. -/
def setPageWithoutAnimation (s : ComponentState) (selectedPage : Int) :
    ComponentState × List Effect :=
  match s.pagerView with
  | none => (s, [])
  | some h => (s, [Effect.nativeSetPageWithoutAnimation h selectedPage])

/-- Method `setScrollEnabled`: same guard, scroll-enabled native command. -/
def setScrollEnabled (s : ComponentState) (scrollEnabled : Bool) :
    ComponentState × List Effect :=
  match s.pagerView with
  | none => (s, [])
  | some h => (s, [Effect.nativeSetScrollEnabledImperatively h scrollEnabled])

/-- Predicate `_onMoveShouldSetResponderCapture`: returns `this.isScrolling`. -/
def _onMoveShouldSetResponderCapture (s : ComponentState) : Bool :=
  s.isScrolling

/-- Getter `deducedLayoutDirection`: the explicit prop unless it is absent
(falsy) or locale, in which case `I18nManager.isRTL` decides. -/
def deducedLayoutDirection (isRTL : Bool) (props : Props) : LayoutDirection :=
  match props.layoutDirection with
  | none => if isRTL then LayoutDirection.rtl else LayoutDirection.ltr
  | some LayoutDirection.locale => if isRTL then LayoutDirection.rtl else LayoutDirection.ltr
  | some d => d

/-- Everything that can happen to a mounted component: the three native
events, the three imperative calls, and the ref callback attaching or
detaching the native view handle. -/
inductive Action where
  | pageScroll (e : OnPageScrollEventData)
  | pageScrollStateChanged (e : OnPageScrollStateChangedEventData)
  | pageSelected (e : OnPageSelectedEventData)
  | callSetPage (i : Int)
  | callSetPageWithoutAnimation (i : Int)
  | callSetScrollEnabled (b : Bool)
  | attach (h : Nat)
  | detach
deriving DecidableEq, Repr

/-- One step of the component: dispatch a single action to the handler the
source wires it to. -/
def dispatch (platform : PlatformOS) (props : Props) (s : ComponentState) :
    Action → ComponentState × List Effect
  | Action.pageScroll e => _onPageScroll platform props s e
  | Action.pageScrollStateChanged e => _onPageScrollStateChanged props s e
  | Action.pageSelected e => _onPageSelected props s e
  | Action.callSetPage i => setPage s i
  | Action.callSetPageWithoutAnimation i => setPageWithoutAnimation s i
  | Action.callSetScrollEnabled b => setScrollEnabled s b
  | Action.attach h => ({ s with pagerView := some h }, [])
  | Action.detach => ({ s with pagerView := none }, [])

/-- Run a list of actions from a given state, concatenating effects. -/
def runActions (platform : PlatformOS) (props : Props) (s : ComponentState) :
    List Action → ComponentState × List Effect
  | [] => (s, [])
  | a :: as =>
      let r1 := dispatch platform props s a
      let r2 := runActions platform props r1.1 as
      (r2.1, r1.2 ++ r2.2)

/-- A full lifetime: construct the component, then run a list of actions. -/
def runFromConstruction (platform : PlatformOS) (props : Props)
    (as : List Action) : ComponentState × List Effect :=
  let r0 := constructPagerView props
  let r1 := runActions platform props r0.1 as
  (r1.1, r0.2 ++ r1.2)

/-- Recognizer for store-creation effects. -/
def isStoreCreate : Effect → Bool
  | Effect.storeCreate _ => true
  | _ => false

/-- Specification-side step function (following the words of the claim): a
scroll-state-changed event sets the flag to whether its state is
`dragging`; every other action leaves the flag alone. -/
def specScrollFlagStep (b : Bool) (a : Action) : Bool :=
  match a with
  | Action.pageScrollStateChanged e => decide (e.pageScrollState = PageScrollState.dragging)
  | _ => b

/-- Specification-side characterization (following the words of the claim): true
exactly when the most recent scroll-state event in the action list was a
`dragging` event. -/
def specLastEventWasDragging (as : List Action) : Bool :=
  as.foldl specScrollFlagStep false

/- ## Helper lemmas -/

theorem dispatch_store_eq_or_selected (platform : PlatformOS) (props : Props)
    (s : ComponentState) (a : Action) :
    (dispatch platform props s a).1.store = s.store ∨ ∃ e, a = Action.pageSelected e := by
  cases a <;>
    simp [dispatch, _onPageScroll, _onPageScrollStateChanged, setPage,
      setPageWithoutAnimation, setScrollEnabled]
  case callSetPage i => cases s.pagerView <;> simp [setPage]
  case callSetPageWithoutAnimation i => cases s.pagerView <;> simp [setPageWithoutAnimation]
  case callSetScrollEnabled b => cases s.pagerView <;> simp [setScrollEnabled]

theorem dispatch_no_storeCreate (platform : PlatformOS) (props : Props)
    (s : ComponentState) (a : Action) :
    (dispatch platform props s a).2.filter isStoreCreate = [] := by
  cases a <;>
    simp only [dispatch, _onPageScroll, _onPageScrollStateChanged, _onPageSelected,
      setPage, setPageWithoutAnimation, setScrollEnabled]
  case pageScroll e =>
    split <;> (try split) <;> (try split) <;> simp [isStoreCreate, List.filter]
  case pageScrollStateChanged e =>
    split <;> simp [isStoreCreate, List.filter]
  case pageSelected e =>
    cases s.store <;> split <;> simp [isStoreCreate, List.filter]
  case callSetPage i => cases s.pagerView <;> simp [isStoreCreate, List.filter]
  case callSetPageWithoutAnimation i => cases s.pagerView <;> simp [isStoreCreate, List.filter]
  case callSetScrollEnabled b => cases s.pagerView <;> simp [isStoreCreate, List.filter]
  case attach h => simp
  case detach => simp

theorem runActions_no_storeCreate (platform : PlatformOS) (props : Props)
    (as : List Action) (s : ComponentState) :
    (runActions platform props s as).2.filter isStoreCreate = [] := by
  induction as generalizing s with
  | nil => rfl
  | cons a as ih =>
      simp [runActions, List.filter_append, dispatch_no_storeCreate, ih]

theorem dispatch_isScrolling (platform : PlatformOS) (props : Props)
    (s : ComponentState) (a : Action) :
    (dispatch platform props s a).1.isScrolling = specScrollFlagStep s.isScrolling a := by
  cases a <;>
    simp only [dispatch, _onPageScroll, _onPageScrollStateChanged, _onPageSelected,
      setPage, setPageWithoutAnimation, setScrollEnabled, specScrollFlagStep]
  case pageSelected e => cases s.store <;> simp
  case callSetPage i => cases s.pagerView <;> simp
  case callSetPageWithoutAnimation i => cases s.pagerView <;> simp
  case callSetScrollEnabled b => cases s.pagerView <;> simp

theorem runActions_isScrolling (platform : PlatformOS) (props : Props)
    (as : List Action) (s : ComponentState) :
    (runActions platform props s as).1.isScrolling
      = as.foldl specScrollFlagStep s.isScrolling := by
  induction as generalizing s with
  | nil => rfl
  | cons a as ih =>
      simp only [runActions, List.foldl_cons]
      rw [ih, dispatch_isScrolling]

/- ## Claim theorems -/

/-- C1: on an `onPageSelected` event with position `p` and children count
`n`, the handler first forwards the event to the user callback (when
provided) and then issues exactly one store update setting `page = p`,
`hasNextPage = (p < n - 1)`, `hasPreviousPage = (p > 0)`; in particular
position 2 with 5 children yields state `{page 2, hasNextPage true,
hasPreviousPage true}`. -/
theorem onPageSelected_forwards_then_updates_once
    (props : Props) (s : ComponentState) (st : PageSyncState)
    (e : OnPageSelectedEventData) (h : s.store = some st) :
    (_onPageSelected props s e =
      ({ s with store := some (applySetState st (selectionUpdate e props.childrenCount)) },
       (if props.onPageSelected then [Effect.userOnPageSelected e] else [])
         ++ [Effect.storeSetState (selectionUpdate e props.childrenCount)]))
    ∧ selectionUpdate e props.childrenCount =
        { page := some e.position
          hasNextPage := some (decide (e.position < (props.childrenCount : Int) - 1))
          hasPreviousPage := some (decide (e.position > 0)) }
    ∧ (_onPageSelected { onPageSelected := true, childrenCount := 5 }
          ⟨false, none, some ⟨0, true, false⟩⟩ ⟨2⟩).1.store = some ⟨2, true, true⟩ := by
  refine ⟨?_, rfl, by decide⟩
  simp [_onPageSelected, h]

/-- Witness for C1 at position 2 with 5 children. -/
theorem onPageSelected_forwards_then_updates_once_witness :
    _onPageSelected { onPageSelected := true, childrenCount := 5 }
        ⟨false, none, some ⟨0, true, false⟩⟩ ⟨2⟩ =
      (⟨false, none, some ⟨2, true, true⟩⟩,
       [Effect.userOnPageSelected ⟨2⟩,
        Effect.storeSetState ⟨some 2, some true, some true⟩]) := by
  have h := (onPageSelected_forwards_then_updates_once
    { onPageSelected := true, childrenCount := 5 }
    ⟨false, none, some ⟨0, true, false⟩⟩ ⟨0, true, false⟩ ⟨2⟩ rfl).1
  rw [h]; decide

/-- C2: `onPageScroll` and `onPageScrollStateChanged` events leave the
page-state store unchanged; among all actions, only `onPageSelected` can
change the store. -/
theorem scroll_events_never_mutate_store
    (platform : PlatformOS) (props : Props) (s : ComponentState)
    (e1 : OnPageScrollEventData) (e2 : OnPageScrollStateChangedEventData) :
    (_onPageScroll platform props s e1).1.store = s.store
    ∧ (_onPageScrollStateChanged props s e2).1.store = s.store
    ∧ ∀ a : Action, (dispatch platform props s a).1.store = s.store
        ∨ ∃ e, a = Action.pageSelected e := by
  refine ⟨?_, ?_, fun a => dispatch_store_eq_or_selected platform props s a⟩
  · simp [_onPageScroll]
  · simp [_onPageScrollStateChanged]

/-- C3: each imperative operation is a silent no-op (no state change, no
command) when the native handle is null, and issues exactly one native
command when the handle is non-null. -/
theorem imperative_commands_null_guard (s : ComponentState) (i : Int) (b : Bool) :
    (s.pagerView = none →
        setPage s i = (s, [])
        ∧ setPageWithoutAnimation s i = (s, [])
        ∧ setScrollEnabled s b = (s, []))
    ∧ ∀ h, s.pagerView = some h →
        setPage s i = (s, [Effect.nativeSetPage h i])
        ∧ setPageWithoutAnimation s i = (s, [Effect.nativeSetPageWithoutAnimation h i])
        ∧ setScrollEnabled s b = (s, [Effect.nativeSetScrollEnabledImperatively h b]) := by
  constructor
  · intro hn
    simp [setPage, setPageWithoutAnimation, setScrollEnabled, hn]
  · intro h hh
    simp [setPage, setPageWithoutAnimation, setScrollEnabled, hh]

/-- Witness for C3: `setPage 3` with a null handle is a no-op; with handle 0
it issues one command. -/
theorem imperative_commands_null_guard_witness :
    setPage ⟨false, none, none⟩ 3 = (⟨false, none, none⟩, [])
    ∧ setPage ⟨false, some 0, none⟩ 3 = (⟨false, some 0, none⟩, [Effect.nativeSetPage 0 3]) :=
  ⟨((imperative_commands_null_guard ⟨false, none, none⟩ 3 true).1 rfl).1,
   ((imperative_commands_null_guard ⟨false, some 0, none⟩ 3 true).2 0 rfl).1⟩

/-- C4: with a non-null handle, `setPage` and `setPageWithoutAnimation`
forward the given index verbatim to the native command — no clamping,
rejection, or comparison against the child count, for any integer index. -/
theorem setPage_forwards_index_verbatim (s : ComponentState) (h : Nat) (i : Int)
    (hh : s.pagerView = some h) :
    setPage s i = (s, [Effect.nativeSetPage h i])
    ∧ setPageWithoutAnimation s i = (s, [Effect.nativeSetPageWithoutAnimation h i]) := by
  simp [setPage, setPageWithoutAnimation, hh]

/-- Witness for C4 at a negative index and an out-of-range index. -/
theorem setPage_forwards_index_verbatim_witness :
    setPage ⟨false, some 7, none⟩ (-3) = (⟨false, some 7, none⟩, [Effect.nativeSetPage 7 (-3)])
    ∧ setPageWithoutAnimation ⟨false, some 7, none⟩ 100
        = (⟨false, some 7, none⟩, [Effect.nativeSetPageWithoutAnimation 7 100]) :=
  ⟨(setPage_forwards_index_verbatim ⟨false, some 7, none⟩ 7 (-3) rfl).1,
   (setPage_forwards_index_verbatim ⟨false, some 7, none⟩ 7 100 rfl).2⟩

/-- C5: the effective layout direction is the `layoutDirection` prop when it
is supplied and not the `locale` sentinel; otherwise it is `rtl` when the
platform reports right-to-left and `ltr` otherwise. -/
theorem deducedLayoutDirection_spec (isRTL : Bool) (props : Props) :
    ((props.layoutDirection = none ∨ props.layoutDirection = some LayoutDirection.locale) →
        deducedLayoutDirection isRTL props
          = (if isRTL then LayoutDirection.rtl else LayoutDirection.ltr))
    ∧ ∀ d, props.layoutDirection = some d → d ≠ LayoutDirection.locale →
        deducedLayoutDirection isRTL props = d := by
  constructor
  · rintro (hl | hl) <;> simp [deducedLayoutDirection, hl]
  · intro d hd hne
    cases d <;> simp [deducedLayoutDirection, hd]
    exact absurd rfl hne

/-- Witness for C5: absent prop and `locale` fall back to the platform
direction; an explicit `ltr` wins. -/
theorem deducedLayoutDirection_spec_witness :
    deducedLayoutDirection true { layoutDirection := none } = LayoutDirection.rtl
    ∧ deducedLayoutDirection true { layoutDirection := some LayoutDirection.locale }
        = LayoutDirection.rtl
    ∧ deducedLayoutDirection true { layoutDirection := some LayoutDirection.ltr }
        = LayoutDirection.ltr :=
  ⟨(deducedLayoutDirection_spec true { layoutDirection := none }).1 (Or.inl rfl),
   (deducedLayoutDirection_spec true { layoutDirection := some LayoutDirection.locale }).1
     (Or.inr rfl),
   (deducedLayoutDirection_spec true { layoutDirection := some LayoutDirection.ltr }).2
     LayoutDirection.ltr rfl (by decide)⟩

/-- C6: `_onPageScrollStateChanged` forwards the event to the user callback
(when provided) and sets the dragging flag to true exactly when the event
state is `dragging`; the responder-capture predicate returns the current
flag, and the handler never touches the store. -/
theorem onPageScrollStateChanged_sets_flag
    (props : Props) (s : ComponentState) (e : OnPageScrollStateChangedEventData) :
    (_onPageScrollStateChanged props s e =
      ({ s with isScrolling := decide (e.pageScrollState = PageScrollState.dragging) },
       if props.onPageScrollStateChanged then [Effect.userOnPageScrollStateChanged e] else []))
    ∧ _onMoveShouldSetResponderCapture s = s.isScrolling
    ∧ (_onPageScrollStateChanged props s e).1.store = s.store := by
  refine ⟨rfl, rfl, ?_⟩
  simp [_onPageScrollStateChanged]

/-- C7: construction creates exactly one store, seeded with
`initialPage ?? 0`; no action during the lifetime of the component creates
another one. -/
theorem store_created_exactly_once (platform : PlatformOS) (props : Props)
    (as : List Action) :
    (runFromConstruction platform props as).2.filter isStoreCreate
        = [Effect.storeCreate (props.initialPage.getD 0)]
    ∧ (constructPagerView props).1.store
        = some (createPagerStore (props.initialPage.getD 0)) := by
  refine ⟨?_, rfl⟩
  simp [runFromConstruction, constructPagerView, List.filter_append,
    runActions_no_storeCreate, isStoreCreate, List.filter]

/-- C8: the store update of `_onPageSelected` is applied whether or not a
user callback is provided: the resulting component state is independent of
the `onPageSelected` prop, and the update effect is always issued. -/
theorem onPageSelected_update_independent_of_callback
    (props : Props) (s : ComponentState) (st : PageSyncState)
    (e : OnPageSelectedEventData) (b : Bool) (h : s.store = some st) :
    (_onPageSelected props s e).1.store
        = some (applySetState st (selectionUpdate e props.childrenCount))
    ∧ Effect.storeSetState (selectionUpdate e props.childrenCount)
        ∈ (_onPageSelected props s e).2
    ∧ (_onPageSelected props s e).1
        = (_onPageSelected { props with onPageSelected := b } s e).1 := by
  simp [_onPageSelected, h]

/-- Witness for C8: with no user callback supplied, the store update is
still applied. -/
theorem onPageSelected_update_independent_of_callback_witness :
    (_onPageSelected { childrenCount := 5 } ⟨false, none, some ⟨0, true, false⟩⟩ ⟨2⟩).1.store
      = some ⟨2, true, true⟩ := by
  have h := (onPageSelected_update_independent_of_callback { childrenCount := 5 }
    ⟨false, none, some ⟨0, true, false⟩⟩ ⟨0, true, false⟩ ⟨2⟩ true rfl).1
  rw [h]; decide

/-- C9: the dragging flag starts false, and after any run of actions the
responder-capture predicate is true exactly when the most recent
scroll-state event was a `dragging` event; `idle` and `settling` events
reset it to false. -/
theorem responderCapture_tracks_dragging (platform : PlatformOS) (props : Props)
    (as : List Action) (s : ComponentState) :
    _onMoveShouldSetResponderCapture (runFromConstruction platform props as).1
        = specLastEventWasDragging as
    ∧ _onMoveShouldSetResponderCapture (constructPagerView props).1 = false
    ∧ (_onPageScrollStateChanged props s ⟨PageScrollState.idle⟩).1.isScrolling = false
    ∧ (_onPageScrollStateChanged props s ⟨PageScrollState.settling⟩).1.isScrolling = false := by
  refine ⟨?_, rfl, rfl, rfl⟩
  simp [runFromConstruction, _onMoveShouldSetResponderCapture, specLastEventWasDragging,
    runActions_isScrolling, constructPagerView]

/-- C10: `_onPageScroll` dismisses the keyboard exactly when the platform is
Android and `keyboardDismissMode` is on-drag, and the dismissal comes
after the user-callback forwarding; otherwise no keyboard effect occurs,
and the handler never changes component state. -/
theorem onPageScroll_keyboard_dismiss (platform : PlatformOS) (props : Props)
    (s : ComponentState) (e : OnPageScrollEventData) :
    (_onPageScroll platform props s e =
      (s, (if props.onPageScroll then [Effect.userOnPageScroll e] else [])
            ++ (if platform = PlatformOS.android
                  ∧ props.keyboardDismissMode = some KeyboardDismissMode.onDrag
                then [Effect.keyboardDismiss] else [])))
    ∧ (Effect.keyboardDismiss ∈ (_onPageScroll platform props s e).2
        ↔ platform = PlatformOS.android
          ∧ props.keyboardDismissMode = some KeyboardDismissMode.onDrag) := by
  constructor
  · by_cases hp : platform = PlatformOS.android <;>
      by_cases hk : props.keyboardDismissMode = some KeyboardDismissMode.onDrag <;>
      simp [_onPageScroll, hp, hk]
  · by_cases hp : platform = PlatformOS.android <;>
      by_cases hk : props.keyboardDismissMode = some KeyboardDismissMode.onDrag <;>
      by_cases hc : props.onPageScroll = true <;>
      simp [_onPageScroll, hp, hk, hc]

end PagerView
